import Mathlib

/-!
Verification of the Execution Dispatch Engine of `direct-executor-server.js`
(mcp-repl). JavaScript strings are modelled as Lean `String`, JS numbers as
`Int`/`Nat`, absent object fields as `Option.none`, exceptions as
`Except.error`, and asynchronous process outcomes as explicit outcome values
fed to the (pure) result-building continuations extracted from the source.
-/

/-- Model of JS `String.prototype.includes`: substring occurrence test.
(`code.includes(marker)` in the source.) -/
def jsIncludes (s m : String) : Bool := decide (m.data <:+: s.data)

/-- The CJS marker list of `executeCode` (direct-executor-server.js:154-160). -/
def cjsMarkers : List String :=
  ["require(", "module.exports", "__dirname", "__filename", "exports."]

/-- `isCjs` from direct-executor-server.js:163:
`cjsMarkers.some(marker => code.includes(marker))`. -/
def isCjs (code : String) : Bool := cjsMarkers.any (fun marker => jsIncludes code marker)

/-- The two execution strategies of the Source Classifier. -/
inductive Strategy where
  | commonjsTempFile
  | moduleStdinPipe
deriving Repr, DecidableEq

/-- The classification decision of `executeCode` (line 166: `if (isCjs)` picks the
temp-file branch, else the stdin-pipe branch). -/
def classify (code : String) : Strategy :=
  if isCjs code then .commonjsTempFile else .moduleStdinPipe

/-- **C1.** The classifier selects the commonjs (temp-file) strategy iff some marker of
`cjsMarkers` occurs as a substring of the source text (no scoping or comment/string
exclusion), and otherwise selects the module (stdin-pipe) strategy. -/
theorem classify_commonjs_iff_marker_substring (code : String) :
    (classify code = .commonjsTempFile ↔
      ∃ m ∈ cjsMarkers, ∃ pre post : String, code = pre ++ m ++ post) ∧
    (classify code = .moduleStdinPipe ↔
      ¬ ∃ m ∈ cjsMarkers, ∃ pre post : String, code = pre ++ m ++ post) := by
  have hsub : ∀ m : String, jsIncludes code m = true ↔
      ∃ pre post : String, code = pre ++ m ++ post := by
    intro m
    unfold jsIncludes
    rw [decide_eq_true_iff]
    constructor
    · rintro ⟨s, t, h⟩
      refine ⟨⟨s⟩, ⟨t⟩, ?_⟩
      apply String.ext
      simpa using h.symm
    · rintro ⟨pre, post, h⟩
      refine ⟨pre.data, post.data, ?_⟩
      have : code.data = pre.data ++ m.data ++ post.data := by
        rw [h]; simp
      simp [this]
  have hcjs : isCjs code = true ↔
      ∃ m ∈ cjsMarkers, ∃ pre post : String, code = pre ++ m ++ post := by
    unfold isCjs
    rw [List.any_eq_true]
    constructor
    · rintro ⟨m, hm, h⟩
      exact ⟨m, hm, (hsub m).mp h⟩
    · rintro ⟨m, hm, h⟩
      exact ⟨m, hm, (hsub m).mpr h⟩
  constructor
  · rw [← hcjs]
    unfold classify
    by_cases h : isCjs code = true <;> simp [h]
  · rw [← hcjs]
    unfold classify
    by_cases h : isCjs code = true <;> simp [h]

/-- The normalized ExecutionResult shape. Absent JS object fields are `none`
(the source's error-path objects omit `stdout`/`stderr`/`code`, and
`executeCode`'s outer catch omits `executionTimeMs`). -/
structure ExecResult where
  success : Bool
  stdout : Option String
  stderr : Option String
  executionTimeMs : Option Int
  code : Option Int
  error : Option String
deriving Repr, DecidableEq

/-- The `close`-event result (direct-executor-server.js:202-219, 258-268, 320-330;
the three continuations build the identical object). `exitCode = none` models a JS
`null` close code (signal-killed child). -/
def closeResult (startTime : Int) (exitCode : Option Int) (stdout stderr : String)
    (closeTime : Int) : ExecResult :=
  { success := exitCode == some 0
    stdout := some stdout
    stderr := some stderr
    executionTimeMs := some (closeTime - startTime)
    code := exitCode
    error := none }

/-- The `error`-event (spawn-level failure) result (lines 222-234, 271-277, 333-339). -/
def spawnErrorResult (startTime : Int) (message : String) (errorTime : Int) : ExecResult :=
  { success := false
    stdout := none
    stderr := none
    executionTimeMs := some (errorTime - startTime)
    code := none
    error := some message }

/-- The result of `executeCode`'s outer catch (lines 284-289): the source object has
no `executionTimeMs` field. -/
def nodeEarlyCatchResult (message : String) : ExecResult :=
  { success := false, stdout := none, stderr := none,
    executionTimeMs := none, code := none, error := some message }

/-- The result of `executeDenoCode`'s outer catch (lines 345-351), which records
`executionTimeMs`. -/
def denoEarlyCatchResult (startTime : Int) (message : String) (catchTime : Int) :
    ExecResult :=
  { success := false, stdout := none, stderr := none,
    executionTimeMs := some (catchTime - startTime), code := none, error := some message }

/-- Terminal outcome of one spawned child: the `close` event (exit code, accumulated
streams) or the `error` event (spawn-level failure), each with the `Date.now()` value
observed inside the handler. -/
inductive ProcOutcome where
  | closed (exitCode : Option Int) (stdout stderr : String) (time : Int)
  | spawnError (message : String) (time : Int)
deriving Repr, DecidableEq

/-- The `Date.now()` value at which the outcome's handler ran. -/
def ProcOutcome.time : ProcOutcome → Int
  | .closed _ _ _ t => t
  | .spawnError _ t => t

/-- One complete control path through `executeCode`: a synchronous throw inside the
try block before the promise is returned (temp-dir/temp-file I/O failure, or
`code.includes` on a non-string), or a child outcome under the commonjs (temp-file)
or module (stdin-pipe) branch. -/
inductive NodePath where
  | earlyThrow (message : String) (time : Int)
  | cjs (outcome : ProcOutcome)
  | esm (outcome : ProcOutcome)
deriving Repr, DecidableEq

/-- Paths of `executeCode` on which no child process reached a `close` event:
the outer catch and the `error` (spawn failure) events of either branch. -/
def NodePath.isSpawnFailure : NodePath → Bool
  | .earlyThrow _ _ => true
  | .cjs (.spawnError _ _) => true
  | .esm (.spawnError _ _) => true
  | .cjs (.closed _ _ _ _) => false
  | .esm (.closed _ _ _ _) => false

/-- The ExecutionResult `executeCode` produces on each control path
(direct-executor-server.js:148-290). -/
def executeCodeResult (startTime : Int) : NodePath → ExecResult
  | .earlyThrow message _ => nodeEarlyCatchResult message
  | .cjs (.closed exitCode stdout stderr t) => closeResult startTime exitCode stdout stderr t
  | .cjs (.spawnError message t) => spawnErrorResult startTime message t
  | .esm (.closed exitCode stdout stderr t) => closeResult startTime exitCode stdout stderr t
  | .esm (.spawnError message t) => spawnErrorResult startTime message t

/-- One complete control path through `executeDenoCode` (lines 293-352). -/
inductive DenoPath where
  | earlyThrow (message : String) (time : Int)
  | outcome (o : ProcOutcome)
deriving Repr, DecidableEq

/-- The `Date.now()` value at which the path was finalized. -/
def DenoPath.time : DenoPath → Int
  | .earlyThrow _ t => t
  | .outcome o => o.time

/-- Paths of `executeDenoCode` with no `close` event. -/
def DenoPath.isSpawnFailure : DenoPath → Bool
  | .earlyThrow _ _ => true
  | .outcome (.spawnError _ _) => true
  | .outcome (.closed _ _ _ _) => false

/-- The ExecutionResult `executeDenoCode` produces on each control path. -/
def executeDenoCodeResult (startTime : Int) : DenoPath → ExecResult
  | .earlyThrow message t => denoEarlyCatchResult startTime message t
  | .outcome (.closed exitCode stdout stderr t) => closeResult startTime exitCode stdout stderr t
  | .outcome (.spawnError message t) => spawnErrorResult startTime message t

/-- **C2.** On every control path of both executors: when an exit code is present,
`success` holds iff that code is 0; `error` is populated exactly on the spawn-level
failure paths (no `close` event), and then `success` is false and no exit code is
present. -/
theorem exec_success_iff_exit_zero (startTime : Int) :
    (∀ p : NodePath,
      (∀ n : Int, (executeCodeResult startTime p).code = some n →
        ((executeCodeResult startTime p).success = true ↔ n = 0)) ∧
      (executeCodeResult startTime p).error.isSome = NodePath.isSpawnFailure p ∧
      ((executeCodeResult startTime p).error.isSome = true →
        (executeCodeResult startTime p).success = false ∧
        (executeCodeResult startTime p).code = none)) ∧
    (∀ q : DenoPath,
      (∀ n : Int, (executeDenoCodeResult startTime q).code = some n →
        ((executeDenoCodeResult startTime q).success = true ↔ n = 0)) ∧
      (executeDenoCodeResult startTime q).error.isSome = DenoPath.isSpawnFailure q ∧
      ((executeDenoCodeResult startTime q).error.isSome = true →
        (executeDenoCodeResult startTime q).success = false ∧
        (executeDenoCodeResult startTime q).code = none)) := by
  constructor
  · intro p
    rcases p with ⟨m, t⟩ | o | o <;> try rcases o with ⟨c, so, se, t⟩ | ⟨m, t⟩
    all_goals
      simp [executeCodeResult, closeResult, spawnErrorResult, nodeEarlyCatchResult,
        NodePath.isSpawnFailure]
    all_goals rintro n rfl; simp [beq_iff_eq]
  · intro q
    rcases q with ⟨m, t⟩ | o <;> try rcases o with ⟨c, so, se, t⟩ | ⟨m, t⟩
    all_goals
      simp [executeDenoCodeResult, closeResult, spawnErrorResult, denoEarlyCatchResult,
        DenoPath.isSpawnFailure]
    all_goals rintro n rfl; simp [beq_iff_eq]

/-- Witness for C2 at a concrete close outcome with exit code 0. -/
theorem exec_success_iff_exit_zero_witness :
    (executeCodeResult 0 (.cjs (.closed (some 0) "out" "" 5))).success = true :=
  (((exec_success_iff_exit_zero 0).1 (.cjs (.closed (some 0) "out" "" 5))).1 0
    (by decide)).mpr rfl

/-- **C3 counterexample.** On `executeCode`'s early synchronous failure path (outer
catch, lines 284-289) the returned result carries no `executionTimeMs` field at all,
refuting the claim that it is present on every outcome path of both executors. -/
theorem exec_time_missing_on_node_early_catch :
    (executeCodeResult 0 (.earlyThrow "ENOSPC: no space left on device" 7)).executionTimeMs
      = none := rfl

/-- **C3 amended.** On every child-process outcome path of both executors, and on
`executeDenoCode`'s early synchronous failure path, `executionTimeMs` is present and
equals the finalization time minus the original start time (hence non-negative
whenever the finalization time is not before the start); on `executeCode`'s early
synchronous failure path the result carries no `executionTimeMs`. -/
theorem exec_time_recorded_except_node_early_catch (startTime : Int) :
    (∀ o : ProcOutcome,
      (executeCodeResult startTime (.cjs o)).executionTimeMs = some (o.time - startTime) ∧
      (executeCodeResult startTime (.esm o)).executionTimeMs = some (o.time - startTime)) ∧
    (∀ q : DenoPath,
      (executeDenoCodeResult startTime q).executionTimeMs = some (q.time - startTime)) ∧
    (∀ m : String, ∀ t : Int,
      (executeCodeResult startTime (.earlyThrow m t)).executionTimeMs = none) ∧
    (∀ t : Int, startTime ≤ t → (0 : Int) ≤ t - startTime) := by
  refine ⟨?_, ?_, ?_, ?_⟩
  · intro o
    rcases o with ⟨c, so, se, t⟩ | ⟨m, t⟩ <;>
      simp [executeCodeResult, closeResult, spawnErrorResult, ProcOutcome.time]
  · intro q
    rcases q with ⟨m, t⟩ | o
    · simp [executeDenoCodeResult, denoEarlyCatchResult, DenoPath.time]
    · rcases o with ⟨c, so, se, t⟩ | ⟨m, t⟩ <;>
        simp [executeDenoCodeResult, closeResult, spawnErrorResult, DenoPath.time,
          ProcOutcome.time]
  · intro m t
    rfl
  · intro t h
    omega

/-- Witness for the amended C3 at concrete inputs. -/
theorem exec_time_recorded_witness :
    (executeDenoCodeResult 0 (.earlyThrow "boom" 5)).executionTimeMs = some (5 - 0) ∧
    (0 : Int) ≤ 5 - 0 :=
  ⟨(exec_time_recorded_except_node_early_catch 0).2.1 (.earlyThrow "boom" 5),
   (exec_time_recorded_except_node_early_catch 0).2.2.2 5 (by decide)⟩

/-- Model of `fs.unlinkSync`: the filesystem is the list of existing paths; the call
fails when the ambient filesystem refuses the deletion (`fault`, e.g. permissions)
or when the path does not exist, and otherwise removes the path. -/
def unlinkSync (fault : Bool) (fs : List String) (p : String) :
    Except String (List String) :=
  if fault then .error "EACCES: permission denied"
  else if p ∈ fs then .ok (fs.filter (fun q => q ≠ p))
  else .error "ENOENT: no such file or directory"

/-- The cleanup blocks at direct-executor-server.js:207-211 and 224-228:
`try { fs.unlinkSync(tempFile) } catch { /* silently handled */ }` — a deletion
failure leaves the filesystem unchanged and raises nothing. -/
def tryUnlink (fault : Bool) (fs : List String) (p : String) : List String :=
  match unlinkSync fault fs p with
  | .ok fs2 => fs2
  | .error _ => fs

/-- The commonjs-branch continuations of `executeCode` (lines 202-236) with the
temp-file cleanup explicit: on either terminal outcome the handler attempts
`unlinkSync(tempFile)` (failure swallowed), then resolves the result. Returns the
filesystem after cleanup paired with the resolved result. -/
def executeCodeCjsTerminal (startTime : Int) (tempFile : String) (fault : Bool)
    (fs : List String) : ProcOutcome → List String × ExecResult
  | .closed exitCode stdout stderr t =>
      (tryUnlink fault fs tempFile, closeResult startTime exitCode stdout stderr t)
  | .spawnError message t =>
      (tryUnlink fault fs tempFile, spawnErrorResult startTime message t)

/-- **C4.** On every terminal outcome of the commonjs branch: the unlink of the temp
file is attempted (the resulting filesystem is exactly the swallowed-failure unlink
of the input filesystem, and when the filesystem does not fault the temp file is
gone); the resolved result is identical whatever the deletion's success or failure;
and it agrees with the executor's result model. -/
theorem temp_cleanup_attempted_and_swallowed (startTime : Int) (tempFile : String)
    (fault : Bool) (fs : List String) (o : ProcOutcome) :
    (executeCodeCjsTerminal startTime tempFile fault fs o).1 =
      tryUnlink fault fs tempFile ∧
    (fault = false →
      tempFile ∉ (executeCodeCjsTerminal startTime tempFile fault fs o).1) ∧
    (∀ fault2 : Bool, ∀ fs2 : List String,
      (executeCodeCjsTerminal startTime tempFile fault2 fs2 o).2 =
        (executeCodeCjsTerminal startTime tempFile fault fs o).2) ∧
    (executeCodeCjsTerminal startTime tempFile fault fs o).2 =
      executeCodeResult startTime (.cjs o) := by
  have hgone : fault = false → tempFile ∉ tryUnlink fault fs tempFile := by
    rintro rfl
    unfold tryUnlink unlinkSync
    by_cases h : tempFile ∈ fs
    · simp [h, List.mem_filter]
    · simp [h]
  rcases o with ⟨c, so, se, t⟩ | ⟨m, t⟩ <;>
    exact ⟨rfl, hgone, fun fault2 fs2 => rfl, rfl⟩

/-- Witness for C4: with a non-faulting filesystem containing the temp file, the
file is absent after a normal close outcome. -/
theorem temp_cleanup_witness :
    "/w/temp/a.cjs" ∉
      (executeCodeCjsTerminal 0 "/w/temp/a.cjs" false ["/w/temp/a.cjs"]
        (.closed (some 0) "" "" 3)).1 :=
  (temp_cleanup_attempted_and_swallowed 0 "/w/temp/a.cjs" false ["/w/temp/a.cjs"]
    (.closed (some 0) "" "" 3)).2.1 rfl

/-- A child-process invocation: binary, argument vector, and the data written to the
child's stdin (`none` when stdin is unused). -/
structure SpawnPlan where
  cmd : String
  args : List String
  stdinData : Option String
deriving Repr, DecidableEq

/-- The spawn invocation `executeCode` performs (lines 185-189 for the classified
temp-file branch; lines 241-245 with the stdin writes of 280-281 for the stdin-pipe
branch), as a function of the source and the generated temp-file path. -/
def executeCodeSpawn (code tempFile : String) : SpawnPlan :=
  if isCjs code then ⟨"node", [tempFile], none⟩
  else ⟨"node", ["--input-type=module"], some code⟩

/-- The spawn invocation `executeDenoCode` performs (lines 298-307, with the stdin
writes at 342-343): `deno run --allow-all -`, full source piped to stdin. -/
def executeDenoSpawn (code : String) : SpawnPlan :=
  ⟨"deno", ["run", "--allow-all", "-"], some code⟩

/-- **C7.** The alternate-runtime executor performs no source classification: for
every source string it spawns `deno` with exactly `run --allow-all -`, writes the
full source to stdin, and the binary and argument vector do not depend on the
source (in particular not on its commonjs markers). -/
theorem deno_spawn_no_classification :
    (∀ code : String,
      executeDenoSpawn code = ⟨"deno", ["run", "--allow-all", "-"], some code⟩) ∧
    (∀ c₁ c₂ : String,
      (executeDenoSpawn c₁).cmd = (executeDenoSpawn c₂).cmd ∧
      (executeDenoSpawn c₁).args = (executeDenoSpawn c₂).args) :=
  ⟨fun _ => rfl, fun _ _ => ⟨rfl, rfl⟩⟩

/-- Decimal digit character for a single digit 0-9. -/
def digitChar : Nat → Char
  | 0 => '0' | 1 => '1' | 2 => '2' | 3 => '3' | 4 => '4'
  | 5 => '5' | 6 => '6' | 7 => '7' | 8 => '8' | _ => '9'

/-- Decimal rendering of a natural number (digit accumulator), modelling the JS
template interpolation `${Date.now()}` of the timestamp. -/
def natDecimalGo (n : Nat) (acc : List Char) : List Char :=
  if h : n < 10 then digitChar n :: acc
  else natDecimalGo (n / 10) (digitChar (n % 10) :: acc)
termination_by n
decreasing_by exact Nat.div_lt_self (by omega) (by omega)

/-- Decimal rendering of a natural number as a string. -/
def natDecimal (n : Nat) : String := ⟨natDecimalGo n []⟩

/-- Value of a digit list (left fold), the parsing inverse of `natDecimalGo`. -/
def decValGo (acc : Nat) : List Char → Nat
  | [] => acc
  | c :: cs => decValGo (acc * 10 + (c.toNat - 48)) cs

theorem decValGo_nil (acc : Nat) : decValGo acc [] = acc := rfl

theorem decValGo_cons (acc : Nat) (c : Char) (cs : List Char) :
    decValGo acc (c :: cs) = decValGo (acc * 10 + (c.toNat - 48)) cs := rfl

theorem decValGo_append (acc : Nat) (xs ys : List Char) :
    decValGo acc (xs ++ ys) = decValGo (decValGo acc xs) ys := by
  induction xs generalizing acc with
  | nil => rfl
  | cons c cs ih =>
    simp only [List.cons_append]
    rw [decValGo_cons, decValGo_cons]
    exact ih _

theorem digitChar_toNat : ∀ k : Nat, k < 10 → (digitChar k).toNat = 48 + k := by
  intro k h
  interval_cases k <;> rfl

theorem digitChar_ne_dash : ∀ k : Nat, k < 10 → digitChar k ≠ '-' := by
  intro k h
  interval_cases k <;> decide

theorem natDecimalGo_append (n : Nat) :
    ∀ acc : List Char, natDecimalGo n acc = natDecimalGo n [] ++ acc := by
  induction n using Nat.strong_induction_on with
  | _ n ih =>
    intro acc
    by_cases h : n < 10
    · conv_lhs => rw [natDecimalGo]
      conv_rhs => rw [natDecimalGo]
      simp [h]
    · have hlt : n / 10 < n := Nat.div_lt_self (by omega) (by omega)
      conv_lhs => rw [natDecimalGo]
      conv_rhs => rw [natDecimalGo]
      simp only [h, dite_false]
      rw [ih _ hlt (digitChar (n % 10) :: acc), ih _ hlt [digitChar (n % 10)]]
      simp

theorem decValGo_natDecimalGo (n : Nat) : decValGo 0 (natDecimalGo n []) = n := by
  induction n using Nat.strong_induction_on with
  | _ n ih =>
    by_cases h : n < 10
    · rw [natDecimalGo]
      simp only [h, dite_true]
      rw [decValGo_cons, decValGo_nil, digitChar_toNat n h]
      omega
    · have hlt : n / 10 < n := Nat.div_lt_self (by omega) (by omega)
      rw [natDecimalGo]
      simp only [h, dite_false]
      rw [natDecimalGo_append, decValGo_append, ih _ hlt]
      have hm : n % 10 < 10 := Nat.mod_lt _ (by omega)
      rw [decValGo_cons, decValGo_nil, digitChar_toNat _ hm]
      omega

theorem natDecimal_injective (m n : Nat) (h : natDecimal m = natDecimal n) : m = n := by
  have hd : natDecimalGo m [] = natDecimalGo n [] := congrArg String.data h
  calc m = decValGo 0 (natDecimalGo m []) := (decValGo_natDecimalGo m).symm
    _ = decValGo 0 (natDecimalGo n []) := by rw [hd]
    _ = n := decValGo_natDecimalGo n

theorem dash_not_mem_natDecimalGo (n : Nat) : '-' ∉ natDecimalGo n [] := by
  induction n using Nat.strong_induction_on with
  | _ n ih =>
    by_cases h : n < 10
    · rw [natDecimalGo]
      simp only [h, dite_true]
      intro hm
      exact digitChar_ne_dash n h (List.mem_singleton.mp hm).symm
    · have hlt : n / 10 < n := Nat.div_lt_self (by omega) (by omega)
      rw [natDecimalGo]
      simp only [h, dite_false]
      rw [natDecimalGo_append]
      intro hm
      rcases List.mem_append.mp hm with hm | hm
      · exact ih _ hlt hm
      · have hm10 : n % 10 < 10 := Nat.mod_lt _ (by omega)
        exact digitChar_ne_dash _ hm10 (List.mem_singleton.mp hm).symm

theorem append_dash_inj {a b u v : List Char} (ha : '-' ∉ a) (hb : '-' ∉ b)
    (h : a ++ '-' :: u = b ++ '-' :: v) : a = b ∧ u = v := by
  induction a generalizing b with
  | nil =>
    cases b with
    | nil => simpa using h
    | cons y ys =>
      simp only [List.nil_append, List.cons_append, List.cons.injEq] at h
      exact absurd (h.1 ▸ List.mem_cons_self y ys) hb
  | cons x xs ih =>
    cases b with
    | nil =>
      simp only [List.cons_append, List.nil_append, List.cons.injEq] at h
      exact absurd (h.1 ▸ List.mem_cons_self x xs) ha
    | cons y ys =>
      simp only [List.cons_append, List.cons.injEq] at h
      obtain ⟨rfl, h2⟩ := h
      have ha2 : '-' ∉ xs := fun hm => ha (List.mem_cons_of_mem _ hm)
      have hb2 : '-' ∉ ys := fun hm => hb (List.mem_cons_of_mem _ hm)
      obtain ⟨h3, h4⟩ := ih ha2 hb2 h2
      exact ⟨by rw [h3], h4⟩

/-- The temp-file name generated at direct-executor-server.js:178:
`node-exec-${Date.now()}-${Math.random().toString(36).substring(2)}.cjs`, as a
function of the request's `Date.now()` draw and random-suffix draw. -/
def tempFileName (now : Nat) (rand : String) : String :=
  "node-exec-" ++ natDecimal now ++ "-" ++ rand ++ ".cjs"

/-- The full temp path `path.join(tempDir, name)` with
`tempDir = path.join(workingDir, 'temp')` (lines 170, 178); `path.join` is modelled
as `/`-separated concatenation. -/
def tempFilePath (workingDir : String) (now : Nat) (rand : String) : String :=
  workingDir ++ "/temp/" ++ tempFileName now rand

/-- **C9 counterexample.** Nothing prevents two concurrent requests from drawing the
same `Date.now()` millisecond and the same `Math.random` suffix, and in that case
they generate the identical temp path: the unconditional claim that N concurrent
requests always produce N pairwise distinct paths is false. -/
theorem temp_paths_can_collide :
    ¬ ∀ draws : List (Nat × String),
        (draws.map (fun d => tempFilePath "/work" d.1 d.2)).Pairwise (· ≠ ·) := by
  intro h
  have h2 := h [(1758000000000, "k3x9q2"), (1758000000000, "k3x9q2")]
  simp [List.pairwise_cons] at h2

/-- **C9 amended.** The generated temp path determines the draws: two
commonjs-classified requests receive the same path exactly when both their
`Date.now()` draw and their random-suffix draw coincide. Consequently any family of
concurrent requests whose draw pairs are pairwise distinct produces pairwise
distinct paths — the collision-freedom claimed by the spec holds under (and only
under) that draw-distinctness assumption, which the runtime does not enforce. -/
theorem temp_paths_distinct_iff_draws_distinct (wd : String) :
    (∀ (t₁ t₂ : Nat) (r₁ r₂ : String),
      tempFilePath wd t₁ r₁ = tempFilePath wd t₂ r₂ ↔ t₁ = t₂ ∧ r₁ = r₂) ∧
    (∀ draws : List (Nat × String), draws.Pairwise (· ≠ ·) →
      (draws.map (fun d => tempFilePath wd d.1 d.2)).Pairwise (· ≠ ·)) := by
  have key : ∀ (t₁ t₂ : Nat) (r₁ r₂ : String),
      tempFilePath wd t₁ r₁ = tempFilePath wd t₂ r₂ → t₁ = t₂ ∧ r₁ = r₂ := by
    intro t₁ t₂ r₁ r₂ h
    have hd := congrArg String.data h
    simp only [tempFilePath, tempFileName, natDecimal, String.data_append,
      List.append_assoc] at hd
    replace hd := List.append_cancel_left hd
    replace hd := List.append_cancel_left hd
    replace hd := List.append_cancel_left hd
    simp only [List.singleton_append] at hd
    obtain ⟨h3, hr⟩ := append_dash_inj (dash_not_mem_natDecimalGo t₁)
      (dash_not_mem_natDecimalGo t₂) hd
    refine ⟨natDecimal_injective t₁ t₂ (congrArg String.mk h3), ?_⟩
    exact String.ext (List.append_cancel_right hr)
  refine ⟨fun t₁ t₂ r₁ r₂ => ⟨key t₁ t₂ r₁ r₂, ?_⟩, ?_⟩
  · rintro ⟨rfl, rfl⟩; rfl
  · intro draws hp
    refine List.Pairwise.map _ (fun a b hab => ?_) hp
    intro heq
    obtain ⟨h1, h2⟩ := key a.1 b.1 a.2 b.2 heq
    exact hab (Prod.ext h1 h2)

/-- Witness for the amended C9: two requests with distinct draws yield distinct
paths. -/
theorem temp_paths_distinct_witness :
    (([((1758000000000 : Nat), "a1b2"), (1758000000001, "a1b2")]).map
      (fun d => tempFilePath "/work" d.1 d.2)).Pairwise (· ≠ ·) :=
  (temp_paths_distinct_iff_draws_distinct "/work").2
    [((1758000000000 : Nat), "a1b2"), (1758000000001, "a1b2")] (by decide)

/-- One response content segment (`{ type: 'text', text }`). -/
structure Segment where
  type : String
  text : String
deriving Repr, DecidableEq

/-- JS truthiness of a possibly absent string field (`undefined` and `''` are
falsy). -/
def strTruthy (o : Option String) : Bool := o.getD "" != ""

/-- JS template rendering `${x}` of a possibly absent numeric field. -/
def jsNumText (o : Option Int) : String :=
  match o with
  | some n => toString n
  | none => "undefined"

/-- JS `result.code || 0` (lines 454, 503): `null`/`undefined`/`0` display as 0. -/
def jsCodeOrZero (o : Option Int) : Int :=
  match o with
  | some n => if n != 0 then n else 0
  | none => 0

/-- The execution-tool rendering block (direct-executor-server.js:425-455 for Node
with label `Execution`, 473-504 for Deno with label `Deno execution`; the blocks are
otherwise identical): stdout segment when truthy (trimmed), error-prefixed stderr
segment when truthy (trimmed), error-message segment when `!result.success &&
result.error`, then the summary segment. -/
def renderExecOutput (label : String) (result : ExecResult) : List Segment :=
  (if strTruthy result.stdout then
    [⟨"text", (result.stdout.getD "").trim⟩] else []) ++
  (if strTruthy result.stderr then
    [⟨"text", "ERROR: " ++ (result.stderr.getD "").trim⟩] else []) ++
  (if !result.success && strTruthy result.error then
    [⟨"text", "ERROR: " ++ result.error.getD ""⟩] else []) ++
  [⟨"text", label ++ " completed in " ++ jsNumText result.executionTimeMs ++
    "ms with exit code " ++ toString (jsCodeOrZero result.code)⟩]

/-- The segment sequence described by the spec sentence behind C6, written with the
spec's own conditions: a trimmed stdout segment iff stdout is non-empty, an
error-prefixed trimmed stderr segment iff stderr is non-empty, an error-prefixed
segment iff a spawn-level error message is present, and a trailing summary whose
displayed exit code defaults to 0 when the result carries none. -/
def specRenderExecOutput (label : String) (r : ExecResult) : List Segment :=
  (if (r.stdout.getD "") ≠ "" then [⟨"text", (r.stdout.getD "").trim⟩] else []) ++
  (if (r.stderr.getD "") ≠ "" then
    [⟨"text", "ERROR: " ++ (r.stderr.getD "").trim⟩] else []) ++
  (if strTruthy r.error then [⟨"text", "ERROR: " ++ r.error.getD ""⟩] else []) ++
  [⟨"text", label ++ " completed in " ++ jsNumText r.executionTimeMs ++
    "ms with exit code " ++ toString (r.code.getD 0)⟩]

/-- **C6.** For every result either executor can produce, the rendered content is
exactly the spec's segment sequence: stdout iff non-empty (trimmed), error-prefixed
stderr iff non-empty (trimmed), error-prefixed spawn-error message iff present, then
the summary with the displayed exit code defaulting to 0 when absent. -/
theorem render_exec_segments_in_spec_order (label : String) (startTime : Int) :
    (∀ p : NodePath,
      renderExecOutput label (executeCodeResult startTime p) =
        specRenderExecOutput label (executeCodeResult startTime p)) ∧
    (∀ q : DenoPath,
      renderExecOutput label (executeDenoCodeResult startTime q) =
        specRenderExecOutput label (executeDenoCodeResult startTime q)) := by
  have hcode : ∀ o : Option Int, jsCodeOrZero o = o.getD 0 := by
    intro o
    rcases o with _ | n
    · rfl
    · simp only [jsCodeOrZero, Option.getD_some]
      by_cases h : n = 0 <;> simp [h]
  constructor
  · intro p
    rcases p with ⟨m, t⟩ | o | o <;> try rcases o with ⟨c, so, se, t⟩ | ⟨m, t⟩
    all_goals
      simp [renderExecOutput, specRenderExecOutput, executeCodeResult, closeResult,
        spawnErrorResult, nodeEarlyCatchResult, strTruthy, hcode, bne_iff_ne]
  · intro q
    rcases q with ⟨m, t⟩ | o <;> try rcases o with ⟨c, so, se, t⟩ | ⟨m, t⟩
    all_goals
      simp [renderExecOutput, specRenderExecOutput, executeDenoCodeResult, closeResult,
        spawnErrorResult, denoEarlyCatchResult, strTruthy, hcode, bne_iff_ne]

/-- One parameter entry of a search hit's structure metadata (line 550). -/
structure SearchParam where
  name : String
  type : Option String
deriving Repr, DecidableEq

/-- The `structure` metadata of a search hit (lines 549-559). -/
structure SearchStructure where
  parameters : List SearchParam
  returnType : Option String
  parentClass : Option String
  inheritsFrom : Option String
  calls : List String
deriving Repr, DecidableEq

/-- One semantic-search hit as consumed by the renderer (lines 545-561); the hit's
numeric fields are modelled as integers (their production is internal to the
out-of-scope indexer). `structureInfo` models the optional `structure` field. -/
structure SearchHit where
  score : Int
  file : String
  startLine : Int
  endLine : Int
  type : String
  qualifiedName : String
  structureInfo : Option SearchStructure
  doc : Option String
  lines : Int
  code : Option String
deriving Repr, DecidableEq

/-- The per-hit rendering of the search branch (lines 545-567), including the JS
truthiness guards and optional chaining (`res.structure?.x`). -/
def renderSearchHit (res : SearchHit) : Segment :=
  let title := "[" ++ toString res.score ++ "] " ++ res.file ++ ":" ++
    toString res.startLine ++ "-" ++ toString res.endLine ++ " - " ++ res.type ++
    " " ++ res.qualifiedName
  let params := (res.structureInfo.map (fun st => st.parameters)).getD []
  let calls := (res.structureInfo.map (fun st => st.calls)).getD []
  let details :=
    (if params.length > 0 then
      ["Parameters: " ++ String.intercalate ", " (params.map (fun p =>
        p.name ++ (if strTruthy p.type then ": " ++ p.type.getD "" else "")))]
     else []) ++
    (if strTruthy (res.structureInfo.bind (fun st => st.returnType)) then
      ["Return type: " ++ (res.structureInfo.bind (fun st => st.returnType)).getD ""]
     else []) ++
    (if strTruthy (res.structureInfo.bind (fun st => st.parentClass)) then
      ["Parent class: " ++ (res.structureInfo.bind (fun st => st.parentClass)).getD ""]
     else []) ++
    (if strTruthy (res.structureInfo.bind (fun st => st.inheritsFrom)) then
      ["Extends: " ++ (res.structureInfo.bind (fun st => st.inheritsFrom)).getD ""]
     else []) ++
    (if strTruthy res.doc then ["Doc: " ++ res.doc.getD ""] else []) ++
    (if calls.length > 0 then ["Calls: " ++ String.intercalate ", " calls] else []) ++
    ["Lines: " ++ toString res.lines] ++
    (if strTruthy res.code then ["Code snippet: " ++ res.code.getD ""] else [])
  ⟨"text", title ++ "\n" ++ String.intercalate "\n" details⟩

/-- The search result envelope of `performCodeSearch` (lines 387-405). The failure
object of the source omits `results` and the three config lists; they are given
neutral values here and the renderer reads them only on the success path. The
constant `metadata` field (lines 394-397) is not consumed anywhere and is omitted. -/
structure SearchRes where
  success : Bool
  results : List SearchHit
  executionTimeMs : Int
  searchFolders : List String
  searchExts : List String
  searchIgnores : List String
  error : Option String
deriving Repr, DecidableEq

/-- The external Search Collaborator (`syncIndex`, `queryIndex` of the lazily loaded
vector indexer): abstract behavior for one request; a `.error` models a thrown
exception. -/
structure SearchEnv where
  sync : List String → List String → List String → Except String Unit
  queryIdx : String → Int → Except String (List SearchHit)

/-- JS `e.trim().replace(/^\./, '')`, dot-strip part: removes one leading dot. -/
def stripLeadingDot (s : String) : String :=
  if s.startsWith "." then s.drop 1 else s

/-- JS `topK || 8` (line 379): `undefined` and `0` both fall back to 8. -/
def jsTopKOr8 (o : Option Int) : Int :=
  match o with
  | some n => if n != 0 then n else 8
  | none => 8

/-- The argument resolution of `performCodeSearch` (lines 360-371): falsy `folders`,
`extensions`, `ignores` default to `[workingDir]`, `['js','ts']`,
`['node_modules']`; supplied values are split on commas, trimmed, and (for folders)
resolved, (for extensions) stripped of one leading dot. -/
structure SearchConfig where
  searchFolders : List String
  searchExts : List String
  searchIgnores : List String
deriving Repr, DecidableEq

def resolveSearchConfig (resolvePath : String → String) (workingDir : String)
    (folders extensions ignores : Option String) : SearchConfig :=
  { searchFolders :=
      if strTruthy folders then
        ((folders.getD "").splitOn ",").map (fun f => resolvePath f.trim)
      else [workingDir]
    searchExts :=
      if strTruthy extensions then
        ((extensions.getD "").splitOn ",").map (fun e => stripLeadingDot e.trim)
      else ["js", "ts"]
    searchIgnores :=
      if strTruthy ignores then
        ((ignores.getD "").splitOn ",").map (fun i => i.trim)
      else ["node_modules"] }

/-- `performCodeSearch` (lines 355-406) with the collaborator calls recorded:
resolves the config, calls `syncIndex(searchFolders, searchExts, searchIgnores)`,
then `queryIndex(query, topK || 8)`; a throw from either is caught (lines 399-405)
and becomes a failure result carrying the elapsed time. Returns the result, the
config passed to sync, and the `(query, topK)` pair passed to queryIndex (`none`
when the query call was never reached). -/
def performCodeSearch (senv : SearchEnv) (resolvePath : String → String)
    (workingDir : String) (query : String)
    (folders extensions ignores : Option String) (topK : Option Int)
    (startTime endTime : Int) : SearchRes × SearchConfig × Option (String × Int) :=
  let cfg := resolveSearchConfig resolvePath workingDir folders extensions ignores
  match senv.sync cfg.searchFolders cfg.searchExts cfg.searchIgnores with
  | .error e =>
      ({ success := false, results := [], executionTimeMs := endTime - startTime,
         searchFolders := [], searchExts := [], searchIgnores := [],
         error := some e }, cfg, none)
  | .ok _ =>
      match senv.queryIdx query (jsTopKOr8 topK) with
      | .error e =>
          ({ success := false, results := [], executionTimeMs := endTime - startTime,
             searchFolders := [], searchExts := [], searchIgnores := [],
             error := some e }, cfg, some (query, jsTopKOr8 topK))
      | .ok hits =>
          ({ success := true, results := hits, executionTimeMs := endTime - startTime,
             searchFolders := cfg.searchFolders, searchExts := cfg.searchExts,
             searchIgnores := cfg.searchIgnores, error := none }, cfg,
           some (query, jsTopKOr8 topK))

/-- The search branch rendering (lines 522-585): on success a header, then either a
no-results segment or a count segment followed by one segment per hit, then a timing
summary; on failure a single error segment. -/
def renderSearchOutput (query : String) (r : SearchRes) : List Segment :=
  if r.success then
    [⟨"text", "Code search for \"" ++ query ++ "\"\nSearched in: " ++
      String.intercalate ", " r.searchFolders ++ "\nIncluded extensions: " ++
      String.intercalate ", " r.searchExts ++ "\nIgnored patterns: " ++
      String.intercalate ", " r.searchIgnores⟩] ++
    (if r.results.length = 0 then [⟨"text", "No results found."⟩]
     else [⟨"text", "Found " ++ toString r.results.length ++ " result(s):"⟩] ++
       r.results.map renderSearchHit) ++
    [⟨"text", "Search completed in " ++ toString r.executionTimeMs ++ "ms"⟩]
  else
    [⟨"text", "ERROR: " ++ (r.error.getD "undefined")⟩]

theorem performCodeSearch_config (senv : SearchEnv) (resolvePath : String → String)
    (workingDir query : String) (folders extensions ignores : Option String)
    (topK : Option Int) (startTime endTime : Int) :
    (performCodeSearch senv resolvePath workingDir query folders extensions ignores
        topK startTime endTime).2.1 =
      resolveSearchConfig resolvePath workingDir folders extensions ignores := by
  unfold performCodeSearch
  dsimp only
  split
  · rfl
  · split <;> rfl

/-- **C8.** For every search request: omitted optional arguments are resolved to
their defaults before the sync-then-query sequence runs — the sync call receives
`[workingDir]`, `['js','ts']`, `['node_modules']`, and (when sync succeeds) the
query call receives topK 8; supplied folder/extension/ignore strings are split on
commas and trimmed (folders additionally resolved, extensions stripped of one
leading dot). -/
theorem search_defaults_resolved (senv : SearchEnv) (resolvePath : String → String)
    (workingDir query : String) (topK : Option Int) (startTime endTime : Int) :
    ((performCodeSearch senv resolvePath workingDir query none none none none
        startTime endTime).2.1 =
      ⟨[workingDir], ["js", "ts"], ["node_modules"]⟩) ∧
    (senv.sync [workingDir] ["js", "ts"] ["node_modules"] = .ok () →
      (performCodeSearch senv resolvePath workingDir query none none none none
        startTime endTime).2.2 = some (query, 8)) ∧
    (∀ f e i : String, f ≠ "" → e ≠ "" → i ≠ "" →
      (performCodeSearch senv resolvePath workingDir query (some f) (some e) (some i)
        topK startTime endTime).2.1 =
      ⟨(f.splitOn ",").map (fun x => resolvePath x.trim),
       (e.splitOn ",").map (fun x => stripLeadingDot x.trim),
       (i.splitOn ",").map (fun x => x.trim)⟩) := by
  have hcfg : resolveSearchConfig resolvePath workingDir none none none =
      ⟨[workingDir], ["js", "ts"], ["node_modules"]⟩ := by
    simp [resolveSearchConfig, strTruthy]
  refine ⟨?_, ?_, ?_⟩
  · rw [performCodeSearch_config, hcfg]
  · intro hsync
    unfold performCodeSearch
    have hfold : resolveSearchConfig resolvePath workingDir none none none =
        ⟨[workingDir], ["js", "ts"], ["node_modules"]⟩ := hcfg
    rw [hfold]
    simp only []
    rw [hsync]
    rcases senv.queryIdx query (jsTopKOr8 none) with e | hits <;>
      simp [jsTopKOr8]
  · intro f e i hf he hi
    rw [performCodeSearch_config]
    simp [resolveSearchConfig, strTruthy, hf, he, hi]

/-- A trivial collaborator instance used by concrete witnesses. -/
def trivSearchEnv : SearchEnv := ⟨fun _ _ _ => .ok (), fun _ _ => .ok []⟩

/-- Witness for C8 at concrete inputs, including the supplied-argument case. -/
theorem search_defaults_resolved_witness :
    ((performCodeSearch trivSearchEnv id "/work" "parse config" none none none none
        0 4).2.1 = ⟨["/work"], ["js", "ts"], ["node_modules"]⟩) ∧
    ((performCodeSearch trivSearchEnv id "/work" "parse config" none none none none
        0 4).2.2 = some ("parse config", 8)) ∧
    ((performCodeSearch trivSearchEnv id "/work" "parse config" (some "a, b")
        (some ".ts") (some "dist") none 0 4).2.1 =
      ⟨(("a, b").splitOn ",").map (fun x => id x.trim),
       ((".ts").splitOn ",").map (fun x => stripLeadingDot x.trim),
       (("dist").splitOn ",").map (fun x => x.trim)⟩) :=
  ⟨(search_defaults_resolved trivSearchEnv id "/work" "parse config" none 0 4).1,
   (search_defaults_resolved trivSearchEnv id "/work" "parse config" none 0 4).2.1 rfl,
   (search_defaults_resolved trivSearchEnv id "/work" "parse config" none 0 4).2.2
     "a, b" ".ts" "dist" (by decide) (by decide) (by decide)⟩

/-- The argument bag of one tool call (`request.params.arguments`); absent JS
properties are `none`. -/
structure ToolArgs where
  code : Option String
  timeout : Option Int
  query : Option String
  folders : Option String
  extensions : Option String
  ignores : Option String
  topK : Option Int
deriving Repr, DecidableEq

/-- One incoming tool call (`request.params`). -/
structure ToolRequest where
  name : String
  args : ToolArgs
deriving Repr, DecidableEq

/-- The ambient nondeterminism one dispatch observes: the working directory, the
control path each executor would take for a given (code, timeout), the search
collaborator, `path.resolve`, and the `Date.now()` readings. -/
structure HandlerEnv where
  workingDir : String
  nodeStart : Int
  nodeRun : String → Int → NodePath
  denoStart : Int
  denoRun : String → Int → DenoPath
  searchEnv : SearchEnv
  resolvePath : String → String
  searchStart : Int
  searchEnd : Int

/-- The body of `callToolHandler`'s try block (direct-executor-server.js:410-588):
name dispatch, falsiness check of the required argument (`if (!code)` /
`if (!query)`), executor or search invocation, rendering. A `.error` is a thrown
exception reaching the catch. -/
def callToolDispatch (env : HandlerEnv) (req : ToolRequest) :
    Except String (List Segment) :=
  let args := req.args
  if req.name = "executenodejs" ∨ req.name = "execute" ∨
      req.name = "mcp_mcp_repl_execute" then
    if strTruthy args.code = false then
      .error "Missing code argument for execute tool"
    else
      .ok (renderExecOutput "Execution"
        (executeCodeResult env.nodeStart
          (env.nodeRun (args.code.getD "") (args.timeout.getD 120000))))
  else if req.name = "executedeno" ∨ req.name = "mcp_mcp_repl_executedeno" then
    if strTruthy args.code = false then
      .error "Missing code argument for Deno execute tool"
    else
      .ok (renderExecOutput "Deno execution"
        (executeDenoCodeResult env.denoStart
          (env.denoRun (args.code.getD "") (args.timeout.getD 120000))))
  else if req.name = "searchcode" ∨ req.name = "mcp_mcp_repl_searchcode" then
    if strTruthy args.query = false then
      .error "Missing query argument for code search tool"
    else
      .ok (renderSearchOutput (args.query.getD "")
        (performCodeSearch env.searchEnv env.resolvePath env.workingDir
          (args.query.getD "") args.folders args.extensions args.ignores args.topK
          env.searchStart env.searchEnd).1)
  else .error ("Unknown tool: " ++ req.name)

/-- `callToolHandler` (lines 409-599): the whole dispatch runs inside one
try/catch; a thrown error becomes a single error-prefixed text segment
(lines 589-598). -/
def callToolHandler (env : HandlerEnv) (req : ToolRequest) : List Segment :=
  match callToolDispatch env req with
  | .ok content => content
  | .error message => [⟨"text", "ERROR: " ++ message⟩]

/-- **C5.** The router never lets a dispatch exception escape: every thrown message
becomes a response whose content is the single error-prefixed segment, and an
unknown tool name yields the single segment `ERROR: Unknown tool: <name>`, whose
text contains the offending name. -/
theorem router_converts_exceptions_to_error_segment (env : HandlerEnv)
    (req : ToolRequest) :
    (∀ m : String, callToolDispatch env req = .error m →
      callToolHandler env req = [⟨"text", "ERROR: " ++ m⟩]) ∧
    (req.name ∉ (["executenodejs", "execute", "mcp_mcp_repl_execute", "executedeno",
        "mcp_mcp_repl_executedeno", "searchcode", "mcp_mcp_repl_searchcode"] :
        List String) →
      callToolHandler env req = [⟨"text", "ERROR: Unknown tool: " ++ req.name⟩] ∧
      jsIncludes ("ERROR: Unknown tool: " ++ req.name) req.name = true) := by
  constructor
  · intro m h
    simp [callToolHandler, h]
  · intro h
    simp only [List.mem_cons, List.mem_singleton, not_or] at h
    obtain ⟨h1, h2, h3, h4, h5, h6, h7⟩ := h
    constructor
    · simp [callToolHandler, callToolDispatch, h1, h2, h3, h4, h5, h6, h7]
      rw [← String.append_assoc]
      congr 1
    · unfold jsIncludes
      rw [decide_eq_true_iff]
      refine List.IsSuffix.isInfix ?_
      refine ⟨("ERROR: Unknown tool: " : String).data, ?_⟩
      simp

/-- A concrete environment instance used by witnesses. -/
def trivEnv : HandlerEnv :=
  { workingDir := "/work"
    nodeStart := 0
    nodeRun := fun _ _ => .esm (.closed (some 0) "" "" 0)
    denoStart := 0
    denoRun := fun _ _ => .outcome (.closed (some 0) "" "" 0)
    searchEnv := trivSearchEnv
    resolvePath := id
    searchStart := 0
    searchEnd := 0 }

/-- An argument bag with every property absent. -/
def noArgs : ToolArgs := ⟨none, none, none, none, none, none, none⟩

/-- Witness for C5: a concrete unknown tool name yields the identifying error
segment. -/
theorem router_unknown_tool_witness :
    callToolHandler trivEnv ⟨"frobnicate", noArgs⟩ =
      [⟨"text", "ERROR: Unknown tool: frobnicate"⟩] :=
  ((router_converts_exceptions_to_error_segment trivEnv ⟨"frobnicate", noArgs⟩).2
    (by decide)).1

/-- **C10.** For each tool, an empty-string required argument is treated exactly as
an absent one (the presence check is a falsiness check): the missing-argument error
is thrown and rendered as the single error text segment, the response is identical
to the absent-argument response, and it is independent of the environment — no
child process is spawned and no search runs. -/
theorem empty_string_arg_treated_as_missing :
    (∀ env env2 : HandlerEnv, ∀ args args2 : ToolArgs, ∀ name : String,
      name = "executenodejs" ∨ name = "execute" ∨ name = "mcp_mcp_repl_execute" →
      args.code = some "" → args2.code = none →
      callToolHandler env ⟨name, args⟩ =
        [⟨"text", "ERROR: Missing code argument for execute tool"⟩] ∧
      callToolHandler env ⟨name, args⟩ = callToolHandler env2 ⟨name, args2⟩) ∧
    (∀ env env2 : HandlerEnv, ∀ args args2 : ToolArgs, ∀ name : String,
      name = "executedeno" ∨ name = "mcp_mcp_repl_executedeno" →
      args.code = some "" → args2.code = none →
      callToolHandler env ⟨name, args⟩ =
        [⟨"text", "ERROR: Missing code argument for Deno execute tool"⟩] ∧
      callToolHandler env ⟨name, args⟩ = callToolHandler env2 ⟨name, args2⟩) ∧
    (∀ env env2 : HandlerEnv, ∀ args args2 : ToolArgs, ∀ name : String,
      name = "searchcode" ∨ name = "mcp_mcp_repl_searchcode" →
      args.query = some "" → args2.query = none →
      callToolHandler env ⟨name, args⟩ =
        [⟨"text", "ERROR: Missing query argument for code search tool"⟩] ∧
      callToolHandler env ⟨name, args⟩ = callToolHandler env2 ⟨name, args2⟩) := by
  refine ⟨?_, ?_, ?_⟩
  · intro env env2 args args2 name hname hc hc2
    rcases hname with rfl | rfl | rfl <;>
      exact ⟨by simp [callToolHandler, callToolDispatch, strTruthy, hc],
        by simp [callToolHandler, callToolDispatch, strTruthy, hc, hc2]⟩
  · intro env env2 args args2 name hname hc hc2
    rcases hname with rfl | rfl <;>
      exact ⟨by simp [callToolHandler, callToolDispatch, strTruthy, hc],
        by simp [callToolHandler, callToolDispatch, strTruthy, hc, hc2]⟩
  · intro env env2 args args2 name hname hq hq2
    rcases hname with rfl | rfl <;>
      exact ⟨by simp [callToolHandler, callToolDispatch, strTruthy, hq],
        by simp [callToolHandler, callToolDispatch, strTruthy, hq, hq2]⟩

/-- Witness for C10 at a concrete empty-code request. -/
theorem empty_string_arg_witness :
    callToolHandler trivEnv ⟨"executenodejs", { noArgs with code := some "" }⟩ =
      [⟨"text", "ERROR: Missing code argument for execute tool"⟩] :=
  (empty_string_arg_treated_as_missing.1 trivEnv trivEnv
    { noArgs with code := some "" } noArgs "executenodejs" (Or.inl rfl) rfl rfl).1
